import Mathlib

/-!
Shallow embedding of
`custom_components/waste_collection_schedule/waste_collection_schedule/source/pevele_publidata.py`
(a Home Assistant waste-collection source connector for Pévèle Carembault via
the Publidata API) and proofs about its behaviour.

HTTP responses are modelled as oracle `Json` parameters: each stage of the
pipeline receives the parsed JSON body that `resp.json()` would produce, and a
request counter records whether the stage issued its HTTP request at all.
Python exceptions are modelled with `Except String`; a per-record `try/except`
that swallows the exception is folded into `Option` results.
-/

/-- A JSON value as produced by `resp.json()` in Python: `None`, booleans,
numbers, strings, lists and dicts (association lists with string keys). -/
inductive Json where
  | null : Json
  | bool : Bool → Json
  | num : Int → Json
  | str : String → Json
  | arr : List Json → Json
  | obj : List (String × Json) → Json
deriving Repr

/-- Python truthiness (`bool(x)`) on JSON values: `None`, `False`, `0`, `""`,
`[]`, `{}` are falsy, everything else truthy. -/
def Json.truthy : Json → Bool
  | .null => false
  | .bool b => b
  | .num n => n != 0
  | .str s => s != ""
  | .arr xs => !xs.isEmpty
  | .obj kvs => !kvs.isEmpty

/-- Python `str(x)` on JSON values. Containers are abstracted to a fixed
non-empty placeholder (their exact Python repr is irrelevant here; only
non-emptiness of the result is ever used). -/
def Json.pyStr : Json → String
  | .null => "None"
  | .bool b => if b then "True" else "False"
  | .num n => toString n
  | .str s => s
  | .arr _ => "[...]"
  | .obj _ => "dict"

/-- `dict.get(key)`: first binding for `key`, `none` when absent. -/
def pyDictGet (kvs : List (String × Json)) (k : String) : Option Json :=
  (kvs.find? (fun kv => kv.1 == k)).map (fun kv => kv.2)

/-- Characters stripped by Python `str.strip()` (the ASCII whitespace set). -/
def isPySpace (c : Char) : Bool :=
  c == ' ' || c == '\t' || c == '\n' || c == '\r' || c.toNat == 11 || c.toNat == 12

/-- Python `str.strip()`. -/
def pyStrip (s : String) : String :=
  String.mk (((s.toList.dropWhile isPySpace).reverse.dropWhile isPySpace).reverse)

/-- A Python `datetime.date`: year, month, day. -/
structure PyDate where
  year : Nat
  month : Nat
  day : Nat
deriving Repr, DecidableEq

/-- Python `date` comparison: lexicographic on (year, month, day). -/
def PyDate.le (a b : PyDate) : Bool :=
  Nat.blt a.year b.year ||
    (a.year == b.year &&
      (Nat.blt a.month b.month || (a.month == b.month && Nat.ble a.day b.day)))

def digitVal (c : Char) : Nat := c.toNat - 48

def isLeap (y : Nat) : Bool := y % 4 == 0 && (y % 100 != 0 || y % 400 == 0)

def daysInMonth (y m : Nat) : Nat :=
  if m == 2 then (if isLeap y then 29 else 28)
  else if m == 4 || m == 6 || m == 9 || m == 11 then 30
  else 31

/-- Validity check performed by the `datetime.date` constructor. -/
def validYMD (y m d : Nat) : Bool :=
  1 ≤ y && y ≤ 9999 && 1 ≤ m && m ≤ 12 && 1 ≤ d && d ≤ daysInMonth y m

/-- Python `datetime.date.fromisoformat`: accepts exactly the strict
`YYYY-MM-DD` calendar-date form (its documented contract), rejecting anything
else, and validates the calendar date. -/
def fromisoformat (s : String) : Option PyDate :=
  match s.toList with
  | [y1, y2, y3, y4, s1, m1, m2, s2, d1, d2] =>
    if y1.isDigit && y2.isDigit && y3.isDigit && y4.isDigit &&
       s1 == '-' && s2 == '-' &&
       m1.isDigit && m2.isDigit && d1.isDigit && d2.isDigit then
      let y := ((digitVal y1 * 10 + digitVal y2) * 10 + digitVal y3) * 10 + digitVal y4
      let m := digitVal m1 * 10 + digitVal m2
      let d := digitVal d1 * 10 + digitVal d2
      if validYMD y m d then some ⟨y, m, d⟩ else none
    else none
  | _ => none

def allDigits (cs : List Char) : Bool := cs.all Char.isDigit

/-- Python `s.split(sep)` for a single-character separator, on char lists
(so that everything reduces by kernel computation). -/
def splitOnChar (sep : Char) : List Char → List (List Char)
  | [] => [[]]
  | c :: rest =>
    if c == sep then [] :: splitOnChar sep rest
    else
      match splitOnChar sep rest with
      | [] => [[c]]
      | g :: gs => (c :: g) :: gs

def natOfDigits (cs : List Char) : Nat := cs.foldl (fun a c => a * 10 + digitVal c) 0

/-- Python `datetime.strptime(s, "%Y-%m-%d").date()`: `%Y` matches exactly four
digits, `%m` and `%d` one or two digits (month 1-12, day 1-31 by the pattern),
the whole string must be consumed, and the `datetime` constructor then
validates the calendar date. -/
def strptimeYmd (s : String) : Option PyDate :=
  match splitOnChar '-' s.toList with
  | [yc, mc, dc] =>
    if yc.length == 4 && allDigits yc &&
       decide (1 ≤ mc.length) && decide (mc.length ≤ 2) && allDigits mc &&
       decide (1 ≤ dc.length) && decide (dc.length ≤ 2) && allDigits dc then
      let y := natOfDigits yc
      let m := natOfDigits mc
      let d := natOfDigits dc
      if decide (1 ≤ m) && decide (m ≤ 12) && decide (1 ≤ d) && decide (d ≤ 31) &&
         validYMD y m d then
        some ⟨y, m, d⟩
      else none
    else none
  | _ => none

/-! ## The JSON path digger (`_dig`)

All paths used in the module consist of string keys only, so the embedding
takes a `List String` path. The Python loop raises `KeyError` when the current
level is not a dict before a string key, and when `cur.get(key)` yields `None`
(key absent, or present with value `null`). -/

def dig : Json → List String → Except String Json
  | cur, [] => Except.ok cur
  | cur, k :: rest =>
    match cur with
    | Json.obj kvs =>
      match pyDictGet kvs k with
      | none => Except.error ("JSON: cle manquante " ++ k)
      | some Json.null => Except.error ("JSON: cle manquante " ++ k)
      | some v => dig v rest
    | _ => Except.error ("JSON: niveau non-dict avant " ++ k)

/-- Python `x[0]` on a JSON value: first element of a list, first character of
a string, and a `TypeError`/`KeyError` otherwise. -/
def pyIndex0 : Json → Except String Json
  | Json.arr (x :: _) => Except.ok x
  | Json.arr [] => Except.error "IndexError"
  | Json.str s =>
    match s.toList with
    | c :: _ => Except.ok (Json.str (String.mk [c]))
    | [] => Except.error "IndexError"
  | _ => Except.error "TypeError: not subscriptable"

/-- Python `x.get(k)` where `x` may not be a dict: `AttributeError` then. -/
def pyGetAttr (v : Json) (k : String) : Except String (Option Json) :=
  match v with
  | Json.obj kvs => Except.ok (pyDictGet kvs k)
  | _ => Except.error "AttributeError: get"

/-! ## Source configuration (`Source.__init__`) -/

/-- The YAML-configurable fields of `Source.__init__` that influence the logic
modelled here (session, URLs and extra params only shape the HTTP requests,
which are oracles in this embedding; the whitelist is kept to state that it is
never consulted). `type_map` is an association list standing for the dict. -/
structure Source where
  citycode : Option String := none
  city_name : Option String := none
  insee_whitelist : Option (List String) := none
  q : Option String := none
  type_map : List (String × String) := []

/-- `self._q = (q or "").strip()`. -/
def Source.qStripped (src : Source) : String :=
  pyStrip (match src.q with
           | none => ""
           | some s => if s == "" then "" else s)

/-- Python truthiness of an `Optional[str]` field. -/
def optStrTruthy : Option String → Bool
  | none => false
  | some s => s != ""

/-- `dict.get(key, default)` on the `type_map`. -/
def typeMapGet (tm : List (String × String)) (k : String) : String :=
  match (tm.find? (fun kv => kv.1 == k)).map (fun kv => kv.2) with
  | none => k
  | some v => v

/-! ## Step 1: `_resolve_citycode`

The HTTP search response body is an oracle parameter; the second component of
the result counts HTTP requests actually issued by the step (the whitelist and
the query only shape the request parameters, never the local computation). -/

/-- The body of `_resolve_citycode` after the HTTP call: dig out `items`,
`if not items: raise`, `items[0].get("insee_code")`, `if not citycode: raise`,
`return str(citycode)`. -/
def searchCity (resp : Json) : Except String String :=
  match dig resp ["items"] with
  | Except.error e => Except.error e
  | Except.ok items =>
    if items.truthy = false then Except.error "Aucune ville trouvee"
    else
      match pyIndex0 items with
      | Except.error e => Except.error e
      | Except.ok first =>
        match pyGetAttr first "insee_code" with
        | Except.error e => Except.error e
        | Except.ok none => Except.error "Champ insee_code absent"
        | Except.ok (some cc) =>
          if cc.truthy then Except.ok cc.pyStr
          else Except.error "Champ insee_code absent"

/-- `_resolve_citycode`: a truthy configured `citycode` is returned as-is with
no request; otherwise a missing/empty `city_name` is a configuration error,
else one search request is issued and `searchCity` handles its body. -/
def resolveCitycode (src : Source) (searchResp : Json) : Except String String × Nat :=
  if optStrTruthy src.citycode then
    (Except.ok (match src.citycode with | some c => c | none => ""), 0)
  else if optStrTruthy src.city_name = false then
    (Except.error "Fournis citycode ou city_name", 0)
  else
    (searchCity searchResp, 1)

/-! ## Step 2: `_geocode` -/

/-- The body of `_geocode` after the HTTP call: dig out `features`,
`if not arr: raise`, `addr = arr[0]`, try `_dig(addr, ["properties", "id"])`
falling back to `addr.get("id")` on any exception (an exception raised by the
fallback itself, e.g. `addr` not a dict, propagates), then
`if not address_id: raise`, `return str(address_id)`. -/
def geocodeExtract (resp : Json) : Except String String :=
  match dig resp ["features"] with
  | Except.error e => Except.error e
  | Except.ok arr =>
    if arr.truthy = false then Except.error "Aucune adresse trouvee via le geocoder"
    else
      match pyIndex0 arr with
      | Except.error e => Except.error e
      | Except.ok addr =>
        match (match dig addr ["properties", "id"] with
               | Except.ok v => Except.ok (some v)
               | Except.error _ => pyGetAttr addr "id") with
        | Except.error e => Except.error e
        | Except.ok none => Except.error "Identifiant adresse introuvable"
        | Except.ok (some v) =>
          if v.truthy then Except.ok v.pyStr
          else Except.error "Identifiant adresse introuvable"

/-- `_geocode`: an empty (post-strip) `q` is a configuration error raised
before any request; otherwise one geocoder request is issued. The resolved
citycode only shapes the request parameters. -/
def geocode (src : Source) (geoResp : Json) : Except String String × Nat :=
  if src.qStripped == "" then
    (Except.error "Parametre q manquant pour le geocoder", 0)
  else
    (geocodeExtract geoResp, 1)

/-! ## Step 3: `_fetch_events` -/

/-- The body of `_fetch_events` after the HTTP call: dig out `items` and check
`isinstance(events, list)`. -/
def fetchEventsExtract (resp : Json) : Except String (List Json) :=
  match dig resp ["items"] with
  | Except.error e => Except.error e
  | Except.ok (Json.arr xs) => Except.ok xs
  | Except.ok _ => Except.error "Reponse events inattendue (pas une liste)"

/-! ## `fetch`: the per-event normalisation loop -/

/-- A final output record (`Collection(date=d, t=t)`). -/
structure Collection where
  date : PyDate
  t : String
deriving Repr, DecidableEq

/-- `x or ""` applied to the result of `ev.get("stream")`: a missing key or a
falsy value becomes the empty string. -/
def pyOrEmptyStr (v : Option Json) : Json :=
  match v with
  | none => Json.str ""
  | some x => if x.truthy then x else Json.str ""

/-- The two-stage date parse of the loop body: `date.fromisoformat(s[:10])`,
and on any exception `datetime.strptime(s, "%Y-%m-%d")`; any non-string value
makes both attempts raise (and be swallowed). -/
def parseEventDate (v : Json) : Option PyDate :=
  match v with
  | Json.str s =>
    match fromisoformat (String.mk (s.toList.take 10)) with
    | some d => some d
    | none => strptimeYmd s
  | _ => none

/-- One iteration of the `fetch` loop on a raw event `ev`:
`raw_type = (ev.get("stream") or "").strip()` (an `AttributeError` from a
non-dict `ev` or a truthy non-string `stream` propagates out of `fetch`),
`t = type_map.get(raw_type, raw_type)`, then `date_str = ev.get("date")`;
a falsy or unparseable date skips the event (`Except.ok none`), otherwise the
record is emitted. -/
def normalizeEvent (tm : List (String × String)) (ev : Json) : Except String (Option Collection) :=
  match ev with
  | Json.obj kvs =>
    match pyOrEmptyStr (pyDictGet kvs "stream") with
    | Json.str s =>
      let t := typeMapGet tm (pyStrip s)
      match pyDictGet kvs "date" with
      | none => Except.ok none
      | some dv =>
        if dv.truthy = false then Except.ok none
        else
          match parseEventDate dv with
          | none => Except.ok none
          | some d => Except.ok (some ⟨d, t⟩)
    | _ => Except.error "AttributeError: strip"
  | _ => Except.error "AttributeError: get"

/-- The `for ev in events` loop of `fetch`, with its `out` accumulator. -/
def processLoop (tm : List (String × String)) :
    List Json → List Collection → Except String (List Collection)
  | [], out => Except.ok out
  | ev :: rest, out =>
    match normalizeEvent tm ev with
    | Except.error e => Except.error e
    | Except.ok none => processLoop tm rest out
    | Except.ok (some c) => processLoop tm rest (out ++ [c])

/-- The whole event-normalisation phase of `fetch` (`out = []` then the loop). -/
def processEvents (tm : List (String × String)) (events : List Json) :
    Except String (List Collection) :=
  processLoop tm events []

/-- `fetch`: resolve citycode, geocode, fetch events, normalise. The three
HTTP response bodies are oracle parameters. -/
def fetch (src : Source) (cityResp geoResp eventsResp : Json) :
    Except String (List Collection) :=
  match (resolveCitycode src cityResp).1 with
  | Except.error e => Except.error e
  | Except.ok _citycode =>
    match (geocode src geoResp).1 with
    | Except.error e => Except.error e
    | Except.ok _addressId =>
      match fetchEventsExtract eventsResp with
      | Except.error e => Except.error e
      | Except.ok events => processEvents src.type_map events

/-- Shorthand for a well-formed raw event, used in concrete instances. -/
def mkEv (d t : String) : Json :=
  Json.obj [("date", Json.str d), ("stream", Json.str t)]


/-! ## Remaining definitions used by the statements -/

/-- One failing `_dig` step, as the claim describes it: the current level is
not a mapping although a string key is expected, or the key is missing from it
or bound to `null`. -/
def stepFails (v : Json) (k : String) : Bool :=
  match v with
  | Json.obj kvs =>
    match pyDictGet kvs k with
    | none => true
    | some Json.null => true
    | some _ => false
  | _ => true

/-- `dig obj path` hits a failing step after `i` successful ones. -/
def digFailsAt (obj : Json) (path : List String) (i : Nat) : Prop :=
  ∃ v k rest, dig obj (path.take i) = Except.ok v ∧
    path.drop i = k :: rest ∧ stepFails v k = true

/-- The per-event contribution of the `fetch` loop, as an `Option`:
`none` when the event is skipped, its record otherwise (and `none` as well
when the loop would raise — the caller conditions on overall success). -/
def eventResult (tm : List (String × String)) (ev : Json) : Option Collection :=
  ((normalizeEvent tm ev).toOption).join

/-- The date contributed by an event, when any. -/
def eventDate (tm : List (String × String)) (ev : Json) : Option PyDate :=
  (eventResult tm ev).map Collection.date

/-- Modelled from the spec: pipeline B (the scrape-based implementation) is
not part of `src/`; only its behaviour is described. A geocoder feature as its
AddressResolver sees it: an address identifier plus the provider's
"certified" flag. -/
structure GeoFeature where
  id : String
  certified : Bool

/-- Modelled from the spec: pipeline B's AddressResolver selection step.
"pipeline B prefers the first result flagged as certified, falling back to
the first result otherwise"; "Geocoding with zero features fails
explicitly". -/
def resolveAddressB (features : List GeoFeature) : Except String String :=
  match features with
  | [] => Except.error "no features"
  | f :: _ =>
    match features.find? (fun g => g.certified) with
    | some g => Except.ok g.id
    | none => Except.ok f.id

/-- Whether a JSON value is a Python `str` (the only values `.strip()`
accepts). -/
def Json.isStr : Json → Bool
  | .str _ => true
  | _ => false

/-! ## Helper lemmas -/

theorem toDigitsCore_length_ge (b : Nat) :
    ∀ (f n : Nat) (ds : List Char), ds.length ≤ (Nat.toDigitsCore b f n ds).length := by
  intro f
  induction f with
  | zero => intro n ds; simp [Nat.toDigitsCore]
  | succ f ih =>
    intro n ds
    simp only [Nat.toDigitsCore]
    by_cases h : n / b = 0
    · simp [h]
    · simp only [h, if_false]
      exact le_trans (by simp) (ih (n / b) (Nat.digitChar (n % b) :: ds))

theorem natRepr_length_pos (n : Nat) : 0 < (Nat.repr n).length := by
  have h1 : 1 ≤ (Nat.toDigits 10 n).length := by
    simp only [Nat.toDigits, Nat.toDigitsCore]
    by_cases h : n / 10 = 0
    · simp [h]
    · simp only [h, if_false]
      exact le_trans (by simp) (toDigitsCore_length_ge 10 n (n / 10) [Nat.digitChar (n % 10)])
  simpa [Nat.repr, String.length, List.asString] using h1

theorem natRepr_ne_empty (n : Nat) : Nat.repr n ≠ "" := by
  intro h
  have := natRepr_length_pos n
  rw [h] at this
  simp at this

theorem intRepr_ne_empty (n : Int) : Int.repr n ≠ "" := by
  cases n with
  | ofNat m => simpa [Int.repr] using natRepr_ne_empty m
  | negSucc m =>
    intro h
    have : ("-" ++ Nat.repr (m + 1)).length = 0 := by rw [Int.repr] at h; simp [h]
    rw [String.length_append] at this
    have := natRepr_length_pos (m + 1)
    omega

/-- Python `str(x)` of a truthy value is never the empty string. -/
theorem truthy_pyStr_ne_empty (v : Json) (h : v.truthy = true) : v.pyStr ≠ "" := by
  cases v with
  | null => simp [Json.truthy] at h
  | bool b => cases b <;> simp_all [Json.truthy, Json.pyStr]
  | num n => simpa [Json.pyStr, toString] using intRepr_ne_empty n
  | str s => simpa [Json.truthy] using h
  | arr xs => simp [Json.pyStr]
  | obj kvs => simp [Json.pyStr]

theorem processLoop_append (tm : List (String × String)) (events : List Json) :
    ∀ acc : List Collection,
      processLoop tm events acc = (processLoop tm events []).map (fun l => acc ++ l) := by
  induction events with
  | nil => intro acc; simp [processLoop, Except.map]
  | cons ev rest ih =>
    intro acc
    simp only [processLoop]
    cases hn : normalizeEvent tm ev with
    | error e => simp [Except.map]
    | ok o =>
      cases o with
      | none => dsimp only; rw [ih acc]
      | some c =>
        dsimp only
        rw [List.nil_append, ih (acc ++ [c]), ih [c]]
        cases processLoop tm rest [] <;> simp [Except.map]

theorem processEvents_ok_eq (tm : List (String × String)) :
    ∀ (events : List Json) (out : List Collection),
      processEvents tm events = Except.ok out →
      out = events.filterMap (eventResult tm) := by
  intro events
  induction events with
  | nil =>
    intro out h
    simp only [processEvents, processLoop] at h
    cases h
    simp
  | cons ev rest ih =>
    intro out h
    simp only [processEvents, processLoop] at h
    cases hn : normalizeEvent tm ev with
    | error e => rw [hn] at h; exact absurd h (by simp)
    | ok o =>
      rw [hn] at h
      cases o with
      | none =>
        dsimp only at h
        have hout := ih out h
        simp only [List.filterMap_cons, eventResult, hn, Except.toOption, Option.join]
        exact hout
      | some c =>
        dsimp only at h
        rw [List.nil_append, processLoop_append tm rest [c]] at h
        cases hr : processLoop tm rest [] with
        | error e => rw [hr] at h; exact absurd h (by simp [Except.map])
        | ok l =>
          rw [hr] at h
          simp only [Except.map, Except.ok.injEq] at h
          have hl := ih l hr
          simp only [List.filterMap_cons, eventResult, hn, Except.toOption, Option.join]
          rw [← h, hl]
          rfl

theorem dig_cons_some (kvs : List (String × Json)) (k : String) (rest : List String)
    (v : Json) (hv : pyDictGet kvs k = some v) (hnn : v ≠ Json.null) :
    dig (Json.obj kvs) (k :: rest) = dig v rest := by
  cases v with
  | null => exact absurd rfl hnn
  | bool b => simp [dig, hv]
  | num n => simp [dig, hv]
  | str s => simp [dig, hv]
  | arr xs => simp [dig, hv]
  | obj o => simp [dig, hv]

theorem stepFails_error (v : Json) (k : String) (rest : List String)
    (h : stepFails v k = true) : ∃ e, dig v (k :: rest) = Except.error e := by
  cases v with
  | null => exact ⟨"JSON: niveau non-dict avant " ++ k, rfl⟩
  | bool b => exact ⟨"JSON: niveau non-dict avant " ++ k, rfl⟩
  | num n => exact ⟨"JSON: niveau non-dict avant " ++ k, rfl⟩
  | str s => exact ⟨"JSON: niveau non-dict avant " ++ k, rfl⟩
  | arr xs => exact ⟨"JSON: niveau non-dict avant " ++ k, rfl⟩
  | obj kvs =>
    simp only [stepFails] at h
    cases hv : pyDictGet kvs k with
    | none => exact ⟨"JSON: cle manquante " ++ k, by simp [dig, hv]⟩
    | some w =>
      rw [hv] at h
      cases w with
      | null => exact ⟨"JSON: cle manquante " ++ k, by simp [dig, hv]⟩
      | bool b => simp at h
      | num n => simp at h
      | str s => simp at h
      | arr xs => simp at h
      | obj o => simp at h

theorem dig_append (p : List String) :
    ∀ (v : Json) (q : List String),
      dig v (p ++ q) = Except.bind (dig v p) (fun w => dig w q) := by
  induction p with
  | nil => intro v q; simp [dig, Except.bind]
  | cons k p ih =>
    intro v q
    cases v with
    | null => simp [dig, Except.bind]
    | bool b => simp [dig, Except.bind]
    | num n => simp [dig, Except.bind]
    | str s => simp [dig, Except.bind]
    | arr xs => simp [dig, Except.bind]
    | obj kvs =>
      simp only [List.cons_append, dig]
      cases hv : pyDictGet kvs k with
      | none => simp [Except.bind]
      | some w =>
        cases w with
        | null => simp [Except.bind]
        | bool b => exact ih (Json.bool b) q
        | num n => exact ih (Json.num n) q
        | str s => exact ih (Json.str s) q
        | arr xs => exact ih (Json.arr xs) q
        | obj o => exact ih (Json.obj o) q

theorem dig_error_of_digFailsAt (obj : Json) (path : List String) (i : Nat)
    (h : digFailsAt obj path i) : ∃ e, dig obj path = Except.error e := by
  obtain ⟨v, k, rest, h1, h2, h3⟩ := h
  have hsplit : path = path.take i ++ (k :: rest) := by
    rw [← h2, List.take_append_drop]
  obtain ⟨e, he⟩ := stepFails_error v k rest h3
  refine ⟨e, ?_⟩
  rw [hsplit, dig_append, h1]
  simpa [Except.bind] using he

theorem digFailsAt_of_dig_error (path : List String) :
    ∀ (obj : Json) (e : String), dig obj path = Except.error e →
      ∃ i, digFailsAt obj path i := by
  induction path with
  | nil => intro obj e h; simp [dig] at h
  | cons k rest ih =>
    intro obj e h
    cases obj with
    | null => exact ⟨0, Json.null, k, rest, rfl, rfl, by simp [stepFails]⟩
    | bool b => exact ⟨0, Json.bool b, k, rest, rfl, rfl, by simp [stepFails]⟩
    | num n => exact ⟨0, Json.num n, k, rest, rfl, rfl, by simp [stepFails]⟩
    | str s => exact ⟨0, Json.str s, k, rest, rfl, rfl, by simp [stepFails]⟩
    | arr xs => exact ⟨0, Json.arr xs, k, rest, rfl, rfl, by simp [stepFails]⟩
    | obj kvs =>
      cases hv : pyDictGet kvs k with
      | none => exact ⟨0, Json.obj kvs, k, rest, rfl, rfl, by simp [stepFails, hv]⟩
      | some w =>
        by_cases hw : w = Json.null
        · subst hw
          exact ⟨0, Json.obj kvs, k, rest, rfl, rfl, by simp [stepFails, hv]⟩
        · rw [dig_cons_some kvs k rest w hv hw] at h
          obtain ⟨i, v, k2, rest2, h1, h2, h3⟩ := ih w e h
          refine ⟨i + 1, v, k2, rest2, ?_, ?_, h3⟩
          · rw [List.take_succ_cons, dig_cons_some kvs k (rest.take i) w hv hw]
            exact h1
          · rw [List.drop_succ_cons]
            exact h2

theorem dig_ok_ne_null (path : List String) :
    ∀ (obj v : Json), path ≠ [] → dig obj path = Except.ok v → v ≠ Json.null := by
  induction path with
  | nil => intro obj v h; exact absurd rfl h
  | cons k rest ih =>
    intro obj v _ h
    cases obj with
    | null => simp [dig] at h
    | bool b => simp [dig] at h
    | num n => simp [dig] at h
    | str s => simp [dig] at h
    | arr xs => simp [dig] at h
    | obj kvs =>
      cases hv : pyDictGet kvs k with
      | none => simp [dig, hv] at h
      | some w =>
        by_cases hw : w = Json.null
        · subst hw; simp [dig, hv] at h
        · rw [dig_cons_some kvs k rest w hv hw] at h
          cases rest with
          | nil =>
            simp only [dig, Except.ok.injEq] at h
            rw [← h]
            exact hw
          | cons k2 r2 => exact ih w v (by simp) h

theorem processLoop_skip (tm : List (String × String)) (ev : Json)
    (h : normalizeEvent tm ev = Except.ok none) :
    ∀ (l1 l2 : List Json) (acc : List Collection),
      processLoop tm (l1 ++ ev :: l2) acc = processLoop tm (l1 ++ l2) acc := by
  intro l1
  induction l1 with
  | nil =>
    intro l2 acc
    simp only [List.nil_append, processLoop, h]
  | cons x l1 ih =>
    intro l2 acc
    simp only [List.cons_append, processLoop]
    cases hx : normalizeEvent tm x with
    | error e => rfl
    | ok o =>
      cases o with
      | none => exact ih l2 acc
      | some c => exact ih l2 (acc ++ [c])

theorem fetch_ok_split (src : Source) (cityResp geoResp eventsResp : Json)
    (out : List Collection) (h : fetch src cityResp geoResp eventsResp = Except.ok out) :
    ∃ events, fetchEventsExtract eventsResp = Except.ok events ∧
      processEvents src.type_map events = Except.ok out := by
  unfold fetch at h
  cases h1 : (resolveCitycode src cityResp).1 with
  | error e => rw [h1] at h; exact absurd h (by simp)
  | ok cc =>
    rw [h1] at h
    cases h2 : (geocode src geoResp).1 with
    | error e => rw [h2] at h; exact absurd h (by simp)
    | ok addr =>
      rw [h2] at h
      cases h3 : fetchEventsExtract eventsResp with
      | error e => rw [h3] at h; exact absurd h (by simp)
      | ok events => rw [h3] at h; exact ⟨events, rfl, h⟩

/-! ## Claims -/

/-- C3: for every events list, the records returned by the `fetch` loop are
exactly the subsequence of events with parseable dates, in the same relative
order as the upstream events list — the output is the `filterMap` of the
per-event result over the input, so no sorting is applied. -/
theorem c3_output_follows_input_order (tm : List (String × String))
    (events : List Json) (out : List Collection)
    (h : processEvents tm events = Except.ok out) :
    out = events.filterMap (eventResult tm) :=
  processEvents_ok_eq tm events out h

theorem c3_output_follows_input_order_witness :
    processEvents []
        [mkEv "2024-03-16" "a", Json.obj [("date", Json.str "N/A")], mkEv "2024-03-15" "b"] =
      Except.ok [⟨⟨2024, 3, 16⟩, "a"⟩, ⟨⟨2024, 3, 15⟩, "b"⟩] ∧
    [⟨⟨2024, 3, 16⟩, "a"⟩, (⟨⟨2024, 3, 15⟩, "b"⟩ : Collection)] =
      [mkEv "2024-03-16" "a", Json.obj [("date", Json.str "N/A")],
        mkEv "2024-03-15" "b"].filterMap (eventResult []) :=
  ⟨rfl, c3_output_follows_input_order [] _ _ rfl⟩

/-- C1 counterexample: a fully successful `fetch` whose returned records are
not ordered by date — the loop keeps the upstream order and the upstream
events here are descending. -/
theorem c1_counterexample :
    fetch { citycode := some "59080", q := some "965 Rue" }
        Json.null
        (Json.obj [("features",
          Json.arr [Json.obj [("properties", Json.obj [("id", Json.str "A1")])]])])
        (Json.obj [("items", Json.arr [mkEv "2024-03-16" "a", mkEv "2024-03-15" "b"])]) =
      Except.ok [⟨⟨2024, 3, 16⟩, "a"⟩, ⟨⟨2024, 3, 15⟩, "b"⟩] ∧
    PyDate.le ⟨2024, 3, 16⟩ ⟨2024, 3, 15⟩ = false :=
  ⟨rfl, rfl⟩

/-- C1 (amended): for every successful `fetch`, the returned list preserves
the upstream event order — it is exactly the parseable upstream subsequence,
in upstream order — and consequently it is ordered by date exactly when (iff)
the dates of the parseable upstream events are already non-decreasing;
`fetch` itself applies no sorting. -/
theorem c1_order_preserved_and_sorted_iff (src : Source)
    (cityResp geoResp eventsResp : Json) (events : List Json) (out : List Collection)
    (hev : fetchEventsExtract eventsResp = Except.ok events)
    (h : fetch src cityResp geoResp eventsResp = Except.ok out) :
    out = events.filterMap (eventResult src.type_map) ∧
    (List.Pairwise (fun a b => PyDate.le a b = true) (out.map Collection.date) ↔
     List.Pairwise (fun a b => PyDate.le a b = true)
       (events.filterMap (eventDate src.type_map))) := by
  obtain ⟨events2, hev2, hp⟩ := fetch_ok_split src cityResp geoResp eventsResp out h
  rw [hev] at hev2
  injection hev2 with he
  subst he
  have h1 := processEvents_ok_eq src.type_map events out hp
  refine ⟨h1, ?_⟩
  rw [h1, List.map_filterMap]
  exact Iff.rfl

theorem c1_order_preserved_and_sorted_iff_witness :
    fetchEventsExtract
        (Json.obj [("items", Json.arr [mkEv "2024-03-15" "a", mkEv "2024-03-16" "b"])]) =
      Except.ok [mkEv "2024-03-15" "a", mkEv "2024-03-16" "b"] ∧
    fetch { citycode := some "59080", q := some "965 Rue" }
        Json.null
        (Json.obj [("features",
          Json.arr [Json.obj [("properties", Json.obj [("id", Json.str "A1")])]])])
        (Json.obj [("items", Json.arr [mkEv "2024-03-15" "a", mkEv "2024-03-16" "b"])]) =
      Except.ok [⟨⟨2024, 3, 15⟩, "a"⟩, ⟨⟨2024, 3, 16⟩, "b"⟩] ∧
    ([⟨⟨2024, 3, 15⟩, "a"⟩, (⟨⟨2024, 3, 16⟩, "b"⟩ : Collection)] =
       [mkEv "2024-03-15" "a", mkEv "2024-03-16" "b"].filterMap (eventResult []) ∧
     (List.Pairwise (fun a b => PyDate.le a b = true)
        ([⟨⟨2024, 3, 15⟩, "a"⟩, (⟨⟨2024, 3, 16⟩, "b"⟩ : Collection)].map Collection.date) ↔
      List.Pairwise (fun a b => PyDate.le a b = true)
        ([mkEv "2024-03-15" "a", mkEv "2024-03-16" "b"].filterMap (eventDate [])))) :=
  ⟨rfl, rfl,
    c1_order_preserved_and_sorted_iff { citycode := some "59080", q := some "965 Rue" }
      Json.null
      (Json.obj [("features",
        Json.arr [Json.obj [("properties", Json.obj [("id", Json.str "A1")])]])])
      (Json.obj [("items", Json.arr [mkEv "2024-03-15" "a", mkEv "2024-03-16" "b"])])
      [mkEv "2024-03-15" "a", mkEv "2024-03-16" "b"]
      [⟨⟨2024, 3, 15⟩, "a"⟩, ⟨⟨2024, 3, 16⟩, "b"⟩]
      rfl rfl⟩

/-- C2: for every raw event whose `stream` field is safe to strip, (1) a date
field that is a non-empty string whose first 10 characters parse as a strict
ISO calendar date — or whose full value parses under the `%Y-%m-%d` fallback
when the ISO attempt fails — yields a record carrying exactly that calendar
date (time-of-day truncated); (2) a missing, empty or doubly-unparseable date
field makes the event be skipped silently; (3) a skipped event leaves every
other event's processing unchanged. -/
theorem c2_date_parse_and_drop :
    (∀ (tm : List (String × String)) (kvs : List (String × Json)) (s : String) (d : PyDate),
       Json.isStr (pyOrEmptyStr (pyDictGet kvs "stream")) = true →
       pyDictGet kvs "date" = some (Json.str s) → s ≠ "" →
       (fromisoformat (String.mk (s.toList.take 10)) = some d ∨
        (fromisoformat (String.mk (s.toList.take 10)) = none ∧ strptimeYmd s = some d)) →
       ∃ t, normalizeEvent tm (Json.obj kvs) = Except.ok (some ⟨d, t⟩)) ∧
    (∀ (tm : List (String × String)) (kvs : List (String × Json)),
       Json.isStr (pyOrEmptyStr (pyDictGet kvs "stream")) = true →
       (pyDictGet kvs "date" = none ∨
        pyDictGet kvs "date" = some (Json.str "") ∨
        (∃ s, pyDictGet kvs "date" = some (Json.str s) ∧
          fromisoformat (String.mk (s.toList.take 10)) = none ∧ strptimeYmd s = none)) →
       normalizeEvent tm (Json.obj kvs) = Except.ok none) ∧
    (∀ (tm : List (String × String)) (l1 l2 : List Json) (ev : Json),
       normalizeEvent tm ev = Except.ok none →
       processEvents tm (l1 ++ ev :: l2) = processEvents tm (l1 ++ l2)) := by
  refine ⟨?_, ?_, ?_⟩
  · intro tm kvs s d hstr hdate hne hparse
    cases hst : pyOrEmptyStr (pyDictGet kvs "stream") with
    | null => rw [hst] at hstr; simp [Json.isStr] at hstr
    | bool b => rw [hst] at hstr; simp [Json.isStr] at hstr
    | num n => rw [hst] at hstr; simp [Json.isStr] at hstr
    | arr xs => rw [hst] at hstr; simp [Json.isStr] at hstr
    | obj o => rw [hst] at hstr; simp [Json.isStr] at hstr
    | str s0 =>
      refine ⟨typeMapGet tm (pyStrip s0), ?_⟩
      simp only [normalizeEvent, hst, hdate]
      have htr : (Json.str s).truthy = true := by simp [Json.truthy, hne]
      rw [htr]
      simp only [Bool.true_eq_false, if_false]
      cases hparse with
      | inl hiso =>
        simp only [String.toList] at hiso
        simp [parseEventDate, hiso]
      | inr hfall =>
        have hiso := hfall.1
        simp only [String.toList] at hiso
        simp [parseEventDate, hiso, hfall.2]
  · intro tm kvs hstr hdate
    cases hst : pyOrEmptyStr (pyDictGet kvs "stream") with
    | null => rw [hst] at hstr; simp [Json.isStr] at hstr
    | bool b => rw [hst] at hstr; simp [Json.isStr] at hstr
    | num n => rw [hst] at hstr; simp [Json.isStr] at hstr
    | arr xs => rw [hst] at hstr; simp [Json.isStr] at hstr
    | obj o => rw [hst] at hstr; simp [Json.isStr] at hstr
    | str s0 =>
      rcases hdate with hdate | hdate | ⟨s, hdate, hiso, hstrp⟩
      · simp [normalizeEvent, hst, hdate]
      · simp [normalizeEvent, hst, hdate, Json.truthy]
      · by_cases hs : s = ""
        · subst hs; simp [normalizeEvent, hst, hdate, Json.truthy]
        · have htr : (Json.str s).truthy = true := by simp [Json.truthy, hs]
          simp only [String.toList] at hiso
          simp [normalizeEvent, hst, hdate, htr, parseEventDate, hiso, hstrp]
  · intro tm l1 l2 ev h
    simp only [processEvents]
    exact processLoop_skip tm ev h l1 l2 []

theorem c2_date_parse_and_drop_witness :
    (∃ t, normalizeEvent [] (mkEv "2024-03-15T00:00:00" "OM") =
       Except.ok (some ⟨⟨2024, 3, 15⟩, t⟩)) ∧
    normalizeEvent [] (mkEv "N/A" "x") = Except.ok none ∧
    processEvents [] ([mkEv "2024-03-16" "a"] ++ mkEv "N/A" "x" :: [mkEv "2024-03-15" "b"]) =
      processEvents [] ([mkEv "2024-03-16" "a"] ++ [mkEv "2024-03-15" "b"]) :=
  ⟨c2_date_parse_and_drop.1 [] _ "2024-03-15T00:00:00" ⟨2024, 3, 15⟩ rfl rfl (by decide)
     (Or.inl rfl),
   c2_date_parse_and_drop.2.1 [] _ rfl (Or.inr (Or.inr ⟨"N/A", rfl, rfl, rfl⟩)),
   c2_date_parse_and_drop.2.2 [] [mkEv "2024-03-16" "a"] [mkEv "2024-03-15" "b"]
     (mkEv "N/A" "x") rfl⟩

/-- C10: a raw event whose date parses but whose `stream` field is missing,
null, or whitespace-only is not dropped: it is emitted with label
`type_map.get("", "")`, i.e. the empty string unless the remap table carries
an empty-string key. -/
theorem c10_blank_stream_still_emitted (tm : List (String × String))
    (kvs : List (String × Json)) (s : String) (d : PyDate)
    (hstream : pyDictGet kvs "stream" = none ∨ pyDictGet kvs "stream" = some Json.null ∨
       (∃ w, pyDictGet kvs "stream" = some (Json.str w) ∧ pyStrip w = ""))
    (hdate : pyDictGet kvs "date" = some (Json.str s))
    (hparse : parseEventDate (Json.str s) = some d) :
    normalizeEvent tm (Json.obj kvs) = Except.ok (some ⟨d, typeMapGet tm ""⟩) := by
  have hso : ∃ w0, pyOrEmptyStr (pyDictGet kvs "stream") = Json.str w0 ∧ pyStrip w0 = "" := by
    rcases hstream with h | h | ⟨w, h, hw⟩
    · exact ⟨"", by simp [pyOrEmptyStr, h], rfl⟩
    · exact ⟨"", by simp [pyOrEmptyStr, h, Json.truthy], rfl⟩
    · by_cases hwe : w = ""
      · exact ⟨"", by simp [pyOrEmptyStr, h, hwe, Json.truthy], rfl⟩
      · refine ⟨w, by simp [pyOrEmptyStr, h, Json.truthy, hwe], hw⟩
  obtain ⟨w0, hw0, hw0s⟩ := hso
  have hne : s ≠ "" := by
    intro hs
    rw [hs] at hparse
    exact Option.noConfusion hparse
  have htr : (Json.str s).truthy = true := by simp [Json.truthy, hne]
  simp [normalizeEvent, hw0, hdate, htr, hparse, hw0s]

theorem c10_blank_stream_still_emitted_witness :
    normalizeEvent [("", "X")]
        (Json.obj [("date", Json.str "2024-03-15"), ("stream", Json.str "   ")]) =
      Except.ok (some ⟨⟨2024, 3, 15⟩, "X"⟩) :=
  c10_blank_stream_still_emitted [("", "X")] _ "2024-03-15" ⟨2024, 3, 15⟩
    (Or.inr (Or.inr ⟨"   ", rfl, rfl⟩)) rfl rfl

/-- C4: geocoding with zero features errors; with at least one feature the
first feature is taken unconditionally and its identifier is read from the
nested `properties.id` path, falling back to the top-level `id` field when the
nested dig fails; when neither location yields a truthy identifier, an error
is raised. -/
theorem c4_geocode_first_feature :
    (∀ resp : Json, dig resp ["features"] = Except.ok (Json.arr []) →
       ∃ e, geocodeExtract resp = Except.error e) ∧
    (∀ (resp f : Json) (fs : List Json) (v : Json),
       dig resp ["features"] = Except.ok (Json.arr (f :: fs)) →
       dig f ["properties", "id"] = Except.ok v → v.truthy = true →
       geocodeExtract resp = Except.ok v.pyStr) ∧
    (∀ (resp : Json) (kvs : List (String × Json)) (fs : List Json) (e0 : String) (v : Json),
       dig resp ["features"] = Except.ok (Json.arr (Json.obj kvs :: fs)) →
       dig (Json.obj kvs) ["properties", "id"] = Except.error e0 →
       pyDictGet kvs "id" = some v → v.truthy = true →
       geocodeExtract resp = Except.ok v.pyStr) ∧
    (∀ (resp : Json) (kvs : List (String × Json)) (fs : List Json),
       dig resp ["features"] = Except.ok (Json.arr (Json.obj kvs :: fs)) →
       (∀ v, dig (Json.obj kvs) ["properties", "id"] = Except.ok v → v.truthy = false) →
       (∀ v, pyDictGet kvs "id" = some v → v.truthy = false) →
       ∃ e, geocodeExtract resp = Except.error e) := by
  refine ⟨?_, ?_, ?_, ?_⟩
  · intro resp hfeat
    refine ⟨"Aucune adresse trouvee via le geocoder", ?_⟩
    simp [geocodeExtract, hfeat, Json.truthy]
  · intro resp f fs v hfeat hdig htr
    have htra : (Json.arr (f :: fs)).truthy = true := by simp [Json.truthy]
    simp [geocodeExtract, hfeat, htra, pyIndex0, hdig, htr]
  · intro resp kvs fs e0 v hfeat hdig hid htr
    have htra : (Json.arr (Json.obj kvs :: fs)).truthy = true := by simp [Json.truthy]
    simp [geocodeExtract, hfeat, htra, pyIndex0, hdig, pyGetAttr, hid, htr]
  · intro resp kvs fs hfeat hnested htop
    have htra : (Json.arr (Json.obj kvs :: fs)).truthy = true := by simp [Json.truthy]
    cases hdig : dig (Json.obj kvs) ["properties", "id"] with
    | ok v =>
      refine ⟨"Identifiant adresse introuvable", ?_⟩
      simp [geocodeExtract, hfeat, htra, pyIndex0, hdig, hnested v hdig]
    | error e0 =>
      cases hid : pyDictGet kvs "id" with
      | none =>
        refine ⟨"Identifiant adresse introuvable", ?_⟩
        simp [geocodeExtract, hfeat, htra, pyIndex0, hdig, pyGetAttr, hid]
      | some v =>
        refine ⟨"Identifiant adresse introuvable", ?_⟩
        simp [geocodeExtract, hfeat, htra, pyIndex0, hdig, pyGetAttr, hid, htop v hid]

theorem c4_geocode_first_feature_witness :
    (∃ e, geocodeExtract (Json.obj [("features", Json.arr [])]) = Except.error e) ∧
    geocodeExtract
        (Json.obj [("features",
          Json.arr [Json.obj [("properties", Json.obj [("id", Json.str "A1")])],
            Json.obj [("properties", Json.obj [("id", Json.str "A2")])]])]) =
      Except.ok "A1" ∧
    geocodeExtract (Json.obj [("features", Json.arr [Json.obj [("id", Json.num 7)]])]) =
      Except.ok "7" ∧
    (∃ e, geocodeExtract
        (Json.obj [("features", Json.arr [Json.obj [("id", Json.str "")]])]) =
      Except.error e) :=
  ⟨c4_geocode_first_feature.1 (Json.obj [("features", Json.arr [])]) rfl,
   c4_geocode_first_feature.2.1
     (Json.obj [("features",
       Json.arr [Json.obj [("properties", Json.obj [("id", Json.str "A1")])],
         Json.obj [("properties", Json.obj [("id", Json.str "A2")])]])])
     (Json.obj [("properties", Json.obj [("id", Json.str "A1")])])
     [Json.obj [("properties", Json.obj [("id", Json.str "A2")])]]
     (Json.str "A1") rfl rfl rfl,
   c4_geocode_first_feature.2.2.1
     (Json.obj [("features", Json.arr [Json.obj [("id", Json.num 7)]])])
     [("id", Json.num 7)] [] "JSON: cle manquante properties" (Json.num 7)
     rfl rfl rfl rfl,
   c4_geocode_first_feature.2.2.2
     (Json.obj [("features", Json.arr [Json.obj [("id", Json.str "")]])])
     [("id", Json.str "")] [] rfl
     (fun v hv => by exact absurd hv (by simp [dig, pyDictGet]))
     (fun v hv => by
       have : v = Json.str "" := by
         have := hv
         simp [pyDictGet] at this
         exact this.symm
       rw [this]; rfl)⟩


theorem searchCity_ok_ne_empty (resp : Json) (r : String)
    (hs : searchCity resp = Except.ok r) : r ≠ "" := by
  unfold searchCity at hs
  cases hd : dig resp ["items"] with
  | error e => rw [hd] at hs; exact absurd hs (by simp)
  | ok items =>
    rw [hd] at hs
    dsimp only at hs
    by_cases ht : items.truthy = false
    · rw [if_pos ht] at hs; exact absurd hs (by simp)
    · rw [if_neg ht] at hs
      cases hi : pyIndex0 items with
      | error e => rw [hi] at hs; exact absurd hs (by simp)
      | ok first =>
        rw [hi] at hs
        dsimp only at hs
        cases hg : pyGetAttr first "insee_code" with
        | error e => rw [hg] at hs; exact absurd hs (by simp)
        | ok o =>
          rw [hg] at hs
          cases o with
          | none => exact absurd hs (by simp)
          | some cc =>
            dsimp only at hs
            by_cases htc : cc.truthy = true
            · rw [if_pos htc] at hs
              injection hs with hs
              rw [← hs]
              exact truthy_pyStr_ne_empty cc htc
            · rw [if_neg htc] at hs
              exact absurd hs (by simp)

/-- C5: city resolution either returns a non-empty code string or errors;
when no code is configured it takes the first search result and extracts its
`insee_code` field, erroring when the result list is empty or the code field
is absent or falsy — it never returns an empty code silently. -/
theorem c5_citycode_nonempty_or_error :
    (∀ (src : Source) (resp : Json) (r : String) (n : Nat),
       resolveCitycode src resp = (Except.ok r, n) → r ≠ "") ∧
    (∀ (src : Source) (resp : Json),
       optStrTruthy src.citycode = false → optStrTruthy src.city_name = true →
       dig resp ["items"] = Except.ok (Json.arr []) →
       resolveCitycode src resp = (Except.error "Aucune ville trouvee", 1)) ∧
    (∀ (src : Source) (resp : Json) (kvs : List (String × Json)) (items : List Json) (cc : Json),
       optStrTruthy src.citycode = false → optStrTruthy src.city_name = true →
       dig resp ["items"] = Except.ok (Json.arr (Json.obj kvs :: items)) →
       pyDictGet kvs "insee_code" = some cc → cc.truthy = true →
       resolveCitycode src resp = (Except.ok cc.pyStr, 1)) ∧
    (∀ (src : Source) (resp : Json) (kvs : List (String × Json)) (items : List Json),
       optStrTruthy src.citycode = false → optStrTruthy src.city_name = true →
       dig resp ["items"] = Except.ok (Json.arr (Json.obj kvs :: items)) →
       (pyDictGet kvs "insee_code" = none ∨
        (∃ cc, pyDictGet kvs "insee_code" = some cc ∧ cc.truthy = false)) →
       resolveCitycode src resp = (Except.error "Champ insee_code absent", 1)) := by
  refine ⟨?_, ?_, ?_, ?_⟩
  · intro src resp r n h
    simp only [resolveCitycode] at h
    by_cases hcc : optStrTruthy src.citycode = true
    · rw [if_pos hcc] at h
      cases hc : src.citycode with
      | none => rw [hc] at hcc; simp [optStrTruthy] at hcc
      | some c =>
        rw [hc] at hcc
        simp only [optStrTruthy] at hcc
        rw [hc] at h
        dsimp only at h
        have h1 : Except.ok c = Except.ok r := congrArg Prod.fst h
        injection h1 with h1
        rw [← h1]
        simpa using hcc
    · rw [if_neg hcc] at h
      by_cases hcn : optStrTruthy src.city_name = false
      · rw [if_pos hcn] at h
        have h1 : Except.error "Fournis citycode ou city_name" = Except.ok r :=
          congrArg Prod.fst h
        exact absurd h1 (by simp)
      · rw [if_neg hcn] at h
        have hs : searchCity resp = Except.ok r := congrArg Prod.fst h
        exact searchCity_ok_ne_empty resp r hs
  · intro src resp h1 h2 hd
    simp [resolveCitycode, h1, h2, searchCity, hd, Json.truthy]
  · intro src resp kvs items cc h1 h2 hd hcc htc
    have htr : (Json.arr (Json.obj kvs :: items)).truthy = true := by simp [Json.truthy]
    simp [resolveCitycode, h1, h2, searchCity, hd, htr, pyIndex0, pyGetAttr, hcc, htc]
  · intro src resp kvs items h1 h2 hd hcc
    have htr : (Json.arr (Json.obj kvs :: items)).truthy = true := by simp [Json.truthy]
    rcases hcc with hcc | ⟨cc, hcc, htc⟩
    · simp [resolveCitycode, h1, h2, searchCity, hd, htr, pyIndex0, pyGetAttr, hcc]
    · simp [resolveCitycode, h1, h2, searchCity, hd, htr, pyIndex0, pyGetAttr, hcc, htc]

theorem c5_citycode_nonempty_or_error_witness :
    "59080" ≠ "" ∧
    resolveCitycode { city_name := some "Beuvry" }
        (Json.obj [("items", Json.arr [])]) =
      (Except.error "Aucune ville trouvee", 1) ∧
    resolveCitycode { city_name := some "Beuvry" }
        (Json.obj [("items", Json.arr [Json.obj [("insee_code", Json.str "59080")]])]) =
      (Except.ok "59080", 1) ∧
    resolveCitycode { city_name := some "Beuvry" }
        (Json.obj [("items", Json.arr [Json.obj [("full_name", Json.str "x")]])]) =
      (Except.error "Champ insee_code absent", 1) :=
  ⟨c5_citycode_nonempty_or_error.1 { city_name := some "Beuvry" }
     (Json.obj [("items", Json.arr [Json.obj [("insee_code", Json.str "59080")]])])
     "59080" 1 rfl,
   c5_citycode_nonempty_or_error.2.1 { city_name := some "Beuvry" }
     (Json.obj [("items", Json.arr [])]) rfl rfl rfl,
   c5_citycode_nonempty_or_error.2.2.1 { city_name := some "Beuvry" }
     (Json.obj [("items", Json.arr [Json.obj [("insee_code", Json.str "59080")]])])
     [("insee_code", Json.str "59080")] [] (Json.str "59080") rfl rfl rfl rfl rfl,
   c5_citycode_nonempty_or_error.2.2.2 { city_name := some "Beuvry" }
     (Json.obj [("items", Json.arr [Json.obj [("full_name", Json.str "x")]])])
     [("full_name", Json.str "x")] [] rfl rfl rfl (Or.inl rfl)⟩

/-- C7: when the configuration supplies neither a truthy citycode nor a
truthy city name, or its geocoder query is empty after stripping, `fetch`
errors whatever the upstream responses are — no records are returned. -/
theorem c7_config_error_aborts_fetch (src : Source) (cityResp geoResp eventsResp : Json)
    (h : (optStrTruthy src.citycode = false ∧ optStrTruthy src.city_name = false) ∨
         src.qStripped = "") :
    ∃ e, fetch src cityResp geoResp eventsResp = Except.error e := by
  rcases h with ⟨h1, h2⟩ | hq
  · refine ⟨"Fournis citycode ou city_name", ?_⟩
    have hr : (resolveCitycode src cityResp).1 = Except.error "Fournis citycode ou city_name" := by
      simp [resolveCitycode, h1, h2]
    simp [fetch, hr]
  · cases hr : (resolveCitycode src cityResp).1 with
    | error e => exact ⟨e, by simp [fetch, hr]⟩
    | ok cc =>
      refine ⟨"Parametre q manquant pour le geocoder", ?_⟩
      have hg : (geocode src geoResp).1 = Except.error "Parametre q manquant pour le geocoder" := by
        simp [geocode, hq]
      simp [fetch, hr, hg]

theorem c7_config_error_aborts_fetch_witness :
    ((optStrTruthy (Source.citycode { }) = false ∧
      optStrTruthy (Source.city_name { }) = false) ∨
     Source.qStripped { } = "") ∧
    (∃ e, fetch { } Json.null Json.null Json.null = Except.error e) :=
  ⟨Or.inl ⟨rfl, rfl⟩, c7_config_error_aborts_fetch { } Json.null Json.null Json.null
    (Or.inl ⟨rfl, rfl⟩)⟩

/-- C8: a configured non-empty citycode is returned verbatim with zero HTTP
requests issued — no search, no whitelist membership test, no format check
(the statement quantifies over every whitelist and every response oracle) —
while an empty-string citycode behaves exactly as an absent one. -/
theorem c8_citycode_verbatim_no_validation :
    (∀ (src : Source) (c : String) (resp : Json),
       src.citycode = some c → c ≠ "" →
       resolveCitycode src resp = (Except.ok c, 0)) ∧
    (∀ (src : Source) (resp : Json),
       resolveCitycode { src with citycode := some "" } resp =
         resolveCitycode { src with citycode := none } resp) := by
  constructor
  · intro src c resp hc hne
    simp [resolveCitycode, hc, optStrTruthy, hne]
  · intro src resp
    simp [resolveCitycode, optStrTruthy]

theorem c8_citycode_verbatim_no_validation_witness :
    resolveCitycode
        { citycode := some "not-even-a-code", insee_whitelist := some ["59080"] }
        (Json.obj [("items", Json.arr [Json.obj [("insee_code", Json.str "59004")]])]) =
      (Except.ok "not-even-a-code", 0) ∧
    resolveCitycode { citycode := some "", city_name := some "Beuvry" }
        (Json.obj [("items", Json.arr [Json.obj [("insee_code", Json.str "59080")]])]) =
      resolveCitycode { citycode := none, city_name := some "Beuvry" }
        (Json.obj [("items", Json.arr [Json.obj [("insee_code", Json.str "59080")]])]) :=
  ⟨c8_citycode_verbatim_no_validation.1
     { citycode := some "not-even-a-code", insee_whitelist := some ["59080"] }
     "not-even-a-code"
     (Json.obj [("items", Json.arr [Json.obj [("insee_code", Json.str "59004")]])])
     rfl (by decide),
   c8_citycode_verbatim_no_validation.2 { citycode := some "x", city_name := some "Beuvry" }
     (Json.obj [("items", Json.arr [Json.obj [("insee_code", Json.str "59080")]])])⟩

/-- C9: pipeline B's address resolver errors on zero features; with at least
one feature it returns the identifier of the first feature flagged as
certified when one exists, and the identifier of the first feature
otherwise. -/
theorem c9_pipelineB_certified_preference :
    (∃ e, resolveAddressB [] = Except.error e) ∧
    (∀ (fs : List GeoFeature) (g : GeoFeature),
       fs.find? (fun x => x.certified) = some g →
       resolveAddressB fs = Except.ok g.id) ∧
    (∀ (f : GeoFeature) (rest : List GeoFeature),
       (f :: rest).find? (fun x => x.certified) = none →
       resolveAddressB (f :: rest) = Except.ok f.id) := by
  refine ⟨⟨"no features", rfl⟩, ?_, ?_⟩
  · intro fs g hg
    cases fs with
    | nil => simp [List.find?] at hg
    | cons f rest => simp [resolveAddressB, hg]
  · intro f rest hg
    simp [resolveAddressB, hg]

theorem c9_pipelineB_certified_preference_witness :
    resolveAddressB
        [{ id := "A", certified := false }, { id := "B", certified := true },
          { id := "C", certified := true }] = Except.ok "B" ∧
    resolveAddressB [{ id := "A", certified := false }, { id := "D", certified := false }] =
      Except.ok "A" :=
  ⟨c9_pipelineB_certified_preference.2.1
     [{ id := "A", certified := false }, { id := "B", certified := true },
       { id := "C", certified := true }]
     { id := "B", certified := true } rfl,
   c9_pipelineB_certified_preference.2.2 { id := "A", certified := false }
     [{ id := "D", certified := false }] rfl⟩

/-- C6 counterexample: `_dig` applied to the JSON value `null` and the empty
path returns normally with result `null`, refuting the claim's clause that a
normal return is never null. -/
theorem c6_counterexample :
    ¬ (∀ (obj : Json) (path : List String) (v : Json),
         dig obj path = Except.ok v → v ≠ Json.null) :=
  fun h => h Json.null [] Json.null rfl rfl

/-- C6 (amended): `_dig` raises a lookup error iff, at some step, the current
level is not a mapping when a string key is expected, or the value reached at
that step is missing or null; and a normal return on a NON-EMPTY path is
never null (the empty path returns the input unchecked, which may be null). -/
theorem c6_dig_error_characterisation :
    (∀ (obj : Json) (path : List String),
       (∃ e, dig obj path = Except.error e) ↔ (∃ i, digFailsAt obj path i)) ∧
    (∀ (obj : Json) (path : List String) (v : Json),
       path ≠ [] → dig obj path = Except.ok v → v ≠ Json.null) := by
  constructor
  · intro obj path
    constructor
    · rintro ⟨e, he⟩
      exact digFailsAt_of_dig_error path obj e he
    · rintro ⟨i, hi⟩
      exact dig_error_of_digFailsAt obj path i hi
  · intro obj path v h1 h2
    exact dig_ok_ne_null path obj v h1 h2

theorem c6_dig_error_characterisation_witness :
    (∃ i, digFailsAt (Json.obj [("a", Json.null)]) ["a"] i) ∧
    Json.str "x" ≠ Json.null :=
  ⟨(c6_dig_error_characterisation.1 (Json.obj [("a", Json.null)]) ["a"]).mp
     ⟨"JSON: cle manquante a", rfl⟩,
   c6_dig_error_characterisation.2 (Json.obj [("a", Json.str "x")]) ["a"] (Json.str "x")
     (by simp) rfl⟩
